import Mathlib

/-!
Verification of the backend core of "The Unsaid": a thin relay that parses
LLM replies into suggestion options, classifies provider errors, maps them
to transport status codes, gates requests on user consent, and rate limits
AI endpoints.  Python strings are modelled as `String`/`List Char`, real
time as `ℚ`, fallible lookups and calls as `Except`/`Option`.
-/

set_option maxRecDepth 4000

/-! ## Python string primitives -/

/-- Python whitespace characters recognized by `str.strip()` (ASCII range). -/
def pyWS (c : Char) : Bool :=
  c == ' ' || c == '\t' || c == '\n' || c == '\r' || c == '\x0b' || c == '\x0c'

/-- `str.strip()` on a character list: drop whitespace from both ends. -/
def pystripL (l : List Char) : List Char :=
  ((l.dropWhile pyWS).reverse.dropWhile pyWS).reverse

/-- `str.strip()` on a string. -/
def pystrip (s : String) : String := String.mk (pystripL s.data)

/-- `str.split("\n")`: split at every newline, keeping empty pieces. -/
def splitNL : List Char → List (List Char)
  | [] => [[]]
  | c :: cs =>
    if c = '\n' then [] :: splitNL cs
    else
      match splitNL cs with
      | [] => [[c]]
      | l :: ls => (c :: l) :: ls

/-- ASCII `str.lower()`. -/
def lowerL (l : List Char) : List Char := l.map Char.toLower

/-- Whether the line contains a colon (`":" in line`). -/
def containsColon (l : List Char) : Bool := l.any (fun c => c == ':')

/-- `line.split(":", 1)[-1]`: everything after the first colon. -/
def afterColon (l : List Char) : List Char :=
  (l.dropWhile (fun c => !(c == ':'))).drop 1

/-! ## Response parser (`OpenRouterService._parse_options`) -/

/-- A single AI suggestion option (model `AIOption`): suggested text plus
the explanation of why it works. -/
structure AIOption where
  text : String
  why : String
deriving DecidableEq, Repr

/-- The label test of `_parse_options`:
`line.startswith(("Option 1:", "Option 2:", "Option 3:", "1.", "2.", "3."))`. -/
def isLabel (line : List Char) : Bool :=
  ("Option 1:".data).isPrefixOf line || ("Option 2:".data).isPrefixOf line ||
  ("Option 3:".data).isPrefixOf line || ("1.".data).isPrefixOf line ||
  ("2.".data).isPrefixOf line || ("3.".data).isPrefixOf line

/-- Text extracted from a labeled line:
`line.split(":", 1)[-1].strip() if ":" in line else line[2:].strip()`. -/
def labelText (line : List Char) : List Char :=
  if containsColon line then pystripL (afterColon line) else pystripL (line.drop 2)

/-- The parser's loop state: finished options plus the suggestion being built. -/
structure PState where
  options : List AIOption
  currentText : List Char
  currentWhy : List Char
deriving DecidableEq, Repr

/-- Finalize the in-progress suggestion: appended only when `current_text`
is truthy, with `current_why or "A valid alternative"` as rationale. -/
def finalizeCurrent (st : PState) : List AIOption :=
  if st.currentText = [] then st.options
  else
    st.options ++
      [⟨String.mk st.currentText,
        if st.currentWhy = [] then "A valid alternative" else String.mk st.currentWhy⟩]

/-- One iteration of the parser's `for line in lines` loop. -/
def parseLine (st : PState) (rawLine : List Char) : PState :=
  let line := pystripL rawLine
  if isLabel line then
    ⟨finalizeCurrent st, labelText line, []⟩
  else if ("why:".data).isPrefixOf (lowerL line) then
    ⟨st.options, st.currentText, pystripL (line.drop 4)⟩
  else
    st

/-- The parser state after the `for line in lines` loop, starting from
empty accumulators on the lines of the stripped reply. -/
def parseFold (response_text : String) : PState :=
  (splitNL (pystripL response_text.data)).foldl parseLine ⟨[], [], []⟩

/-- The `options` list after the loop and the final `if current_text`
append, before the fallback and the cap. -/
def parsedOptions (response_text : String) : List AIOption :=
  finalizeCurrent (parseFold response_text)

/-- `OpenRouterService._parse_options`: split the stripped reply into lines,
scan for labeled sections and `Why:` rationales, fall back to the first 500
characters of the raw reply when nothing was recognized, cap at 3 options. -/
def parse_options (response_text : String) : List AIOption :=
  (if parsedOptions response_text = []
   then [⟨String.mk (response_text.data.take 500), "AI suggestion"⟩]
   else parsedOptions response_text).take 3

/-- The stripped lines of the reply that the parser recognizes as labels,
in input order. -/
def labelLines (s : String) : List (List Char) :=
  ((splitNL (pystripL s.data)).map pystripL).filter isLabel

/-- The texts the parser has committed so far: texts of finished options
plus the in-progress text when it is truthy. -/
def emittedTexts (st : PState) : List (List Char) :=
  st.options.map (fun o => o.text.data) ++
    (if st.currentText = [] then [] else [st.currentText])

/-! ## Error taxonomy (`AIServiceError` and its subclasses) -/

/-- The concrete Python class of a service error, used for `isinstance`
dispatch in `handle_ai_error`. -/
inductive AIErrorClass
  | base
  | rateLimit
  | timeout
  | provider
  | config
  | parsing
deriving DecidableEq, Repr

/-- An `AIServiceError` instance: message, `error_type`, `retryable` flag,
and the concrete subclass it was constructed as. -/
structure AIServiceError where
  message : String
  error_type : String
  retryable : Bool
  cls : AIErrorClass
deriving DecidableEq, Repr

/-- `AIServiceError(message, error_type, retryable)` — the base-class
constructor, used directly only for the Unknown catch-all. -/
def mkAIServiceError (message error_type : String) (retryable : Bool) : AIServiceError :=
  ⟨message, error_type, retryable, .base⟩

/-- `AIRateLimitError(message)`: `error_type="rate_limit"`, retryable. -/
def mkAIRateLimitError (message : String) : AIServiceError :=
  ⟨message, "rate_limit", true, .rateLimit⟩

/-- `AITimeoutError(message)`: `error_type="timeout"`, retryable. -/
def mkAITimeoutError (message : String) : AIServiceError :=
  ⟨message, "timeout", true, .timeout⟩

/-- `AIProviderError(message)`: `error_type="provider_error"`, retryable. -/
def mkAIProviderError (message : String) : AIServiceError :=
  ⟨message, "provider_error", true, .provider⟩

/-- `AIConfigError(message)`: `error_type="config_error"`, NOT retryable. -/
def mkAIConfigError (message : String) : AIServiceError :=
  ⟨message, "config_error", false, .config⟩

/-- `AIParsingError(message)`: `error_type="parsing_error"`, retryable. -/
def mkAIParsingError (message : String) : AIServiceError :=
  ⟨message, "parsing_error", true, .parsing⟩

/-- `AIRateLimitError()` with its default message, as raised on status 429. -/
def rateLimitErrorDefault : AIServiceError :=
  mkAIRateLimitError "AI service rate limit exceeded. Please wait a moment."

/-- The error `_call_llm` raises from its final `except Exception` catch-all:
an Unknown-classified `AIServiceError`, marked retryable. -/
def unknownAIServiceError : AIServiceError :=
  mkAIServiceError "An unexpected error occurred. Please try again." "unknown" true

/-- An exception reaching `handle_ai_error`: either an `AIServiceError`
instance, or any other exception (carrying its type name and message). -/
inductive PyError
  | ai (e : AIServiceError)
  | other (typeName message : String)
deriving DecidableEq, Repr

/-- An HTTP exception: transport status code plus client-visible detail. -/
structure HTTPException where
  status_code : Nat
  detail : String
deriving DecidableEq, Repr

/-! ## Status classification (`OpenRouterService._call_llm`) -/

/-- httpx `response.is_success`: status in [200, 300). -/
def is_success (status : Nat) : Bool := 200 ≤ status && status < 300

/-- The status-code dispatch of `_call_llm` on the provider's HTTP response:
`some e` when the branch raises classified error `e`, `none` when the
response is successful and processing continues. -/
def classify_status (status : Nat) : Option AIServiceError :=
  if status = 429 then some rateLimitErrorDefault
  else if status = 401 then
    some (mkAIConfigError "AI service authentication failed. Please contact support.")
  else if status = 402 then
    some (mkAIProviderError "AI service payment required. Please contact support.")
  else if 500 ≤ status then
    some (mkAIProviderError "AI service is experiencing issues. Please try again later.")
  else if is_success status then none
  else some (mkAIProviderError ("AI service returned error: " ++ toString status))

/-! ## Error mapping (`handle_ai_error` in the AI router) -/

/-- `handle_ai_error`: cascade of `isinstance` checks converting a raised
exception into the `HTTPException` returned to the client. -/
def handle_ai_error : PyError → HTTPException
  | .ai e =>
    if e.cls = .rateLimit then ⟨429, e.message⟩
    else if e.cls = .timeout then ⟨504, e.message⟩
    else if e.cls = .config then ⟨503, "AI service is temporarily unavailable."⟩
    else ⟨if e.retryable then 503 else 500, e.message⟩
  | .other _ _ => ⟨500, "An unexpected error occurred. Please try again."⟩

/-! ## Consent gate (`verify_ai_consent`) -/

/-- The row returned for a user from the `preferences` table; the
`ai_enabled` column may be missing from the selected dict. -/
structure ConsentRow where
  ai_enabled : Option Bool
deriving DecidableEq, Repr

/-- Outcome of the preference lookup for a verified user: the query returns
(`ok`) with possibly-falsy data, or raises (`raise`, e.g. no row found by
`.single()`, or the table is unreadable). -/
inductive ConsentLookup
  | ok (data : Option ConsentRow)
  | raise
deriving DecidableEq, Repr

/-- Whether `needle` occurs as a contiguous substring of `hay`. -/
def containsSub (needle hay : List Char) : Bool :=
  match hay with
  | [] => needle.isEmpty
  | _ :: t => needle.isPrefixOf hay || containsSub needle t

/-- The fixed 403 detail of the consent gate. -/
def consentDetail : String := "AI features require consent. Please enable AI in settings."

/-- `verify_ai_consent` after the user is verified: reject 403 unless the
preference record exists, is readable, and has a truthy `ai_enabled`. -/
def verify_ai_consent (lookup : ConsentLookup) : Except HTTPException Bool :=
  match lookup with
  | .raise => .error ⟨403, consentDetail⟩
  | .ok data =>
    let enabled : Bool :=
      match data with
      | none => false
      | some row => row.ai_enabled.getD false
    if enabled then .ok true else .error ⟨403, consentDetail⟩

/-! ## Rate limiter (`RateLimitMiddleware.dispatch`) -/

/-- The fixed window: 3600 seconds. -/
def rlWindow : ℚ := 3600

/-- Drop stored timestamps older than `now - window`
(`current_time - req_time < self.window` keeps an entry). -/
def rlFilter (now : ℚ) (times : List ℚ) : List ℚ :=
  times.filter (fun t => decide (now - t < rlWindow))

/-- One rate-limit check for one identifier: clean old entries, reject when
the remaining count reaches the limit, otherwise record `now` and admit.
Returns (admitted?, new stored list). -/
def rlStep (limit : Nat) (st : List ℚ) (now : ℚ) : Bool × List ℚ :=
  if limit ≤ (rlFilter now st).length then (false, rlFilter now st)
  else (true, rlFilter now st ++ [now])

/-- The stored timestamp list of one identifier after a sequence of checks,
starting from no history. -/
def rlRun (limit : Nat) (checks : List ℚ) : List ℚ :=
  checks.foldl (fun st now => (rlStep limit st now).2) []

/-- Whether the request path is rate limited
(`request.url.path.startswith("/api/ai")`). -/
def aiPath (path : String) : Bool := ("/api/ai".data).isPrefixOf path.data

/-- `RateLimitMiddleware.dispatch` restricted to its rate-limiting effect:
`none` means the path bypasses the limiter, `some b` the admit decision. -/
def dispatchRL (limit : Nat) (path : String) (st : List ℚ) (now : ℚ) :
    Option Bool × List ℚ :=
  if aiPath path then
    let r := rlStep limit st now
    (some r.1, r.2)
  else (none, st)

/-! ## Mode operations (`clarify`, `alternatives`, `tone`, `expand`, `opening`) -/

/-- Response of an AI endpoint (model `AIResponse`). -/
structure AIResponse where
  options : List AIOption
  original_valid : Bool
deriving DecidableEq, Repr

/-- Wrap a raw LLM reply: parse it and set `original_valid=True`
(`AIResponse(options=self._parse_options(response), original_valid=True)`). -/
def modeReply (raw : String) : AIResponse := ⟨parse_options raw, true⟩

/-- `OpenRouterService.clarify`: `llm` is the outcome of
`_call_llm(CLARIFY_PROMPT.format(draft_text=...), recipient, intent)` —
raised classified error or raw reply text. -/
def clarify (llm : Except AIServiceError String) : Except AIServiceError AIResponse :=
  llm.map modeReply

/-- `OpenRouterService.alternatives`, LLM call abstracted by its outcome. -/
def alternatives (llm : Except AIServiceError String) : Except AIServiceError AIResponse :=
  llm.map modeReply

/-- `OpenRouterService.tone`, LLM call abstracted by its outcome. -/
def tone (llm : Except AIServiceError String) : Except AIServiceError AIResponse :=
  llm.map modeReply

/-- `OpenRouterService.expand`, LLM call abstracted by its outcome. -/
def expand (llm : Except AIServiceError String) : Except AIServiceError AIResponse :=
  llm.map modeReply

/-- `OpenRouterService.opening`, LLM call abstracted by its outcome. -/
def opening (llm : Except AIServiceError String) : Except AIServiceError AIResponse :=
  llm.map modeReply

/-! ## Claim theorems -/

/-- C1 counterexample: the claim maps Unknown-classified errors to 500, but
the Unknown-classified `AIServiceError` raised by `_call_llm`'s catch-all is
retryable, so `handle_ai_error` maps it to 503, not 500. -/
theorem handle_ai_error_unknown_counterexample :
    (handle_ai_error (PyError.ai unknownAIServiceError)).status_code = 503 ∧
    ¬ (handle_ai_error (PyError.ai unknownAIServiceError)).status_code = 500 := by
  decide

/-- C1 (amended): `handle_ai_error` maps RateLimit errors to 429, Timeout to
504, ConfigError to 503 with a fixed generic message independent of the
error's own message, any ProviderError to 503 if retryable else 500, the
Unknown-classified service error (which is retryable) to 503 with its
generic message, and exceptions outside the service taxonomy to 500 with a
generic message. -/
theorem handle_ai_error_mapping (m typeName : String) (e : AIServiceError) :
    handle_ai_error (.ai (mkAIRateLimitError m)) = ⟨429, m⟩ ∧
    handle_ai_error (.ai (mkAITimeoutError m)) = ⟨504, m⟩ ∧
    handle_ai_error (.ai (mkAIConfigError m)) =
      ⟨503, "AI service is temporarily unavailable."⟩ ∧
    (e.cls = .provider →
      handle_ai_error (.ai e) = ⟨if e.retryable then 503 else 500, e.message⟩) ∧
    handle_ai_error (.ai unknownAIServiceError) =
      ⟨503, "An unexpected error occurred. Please try again."⟩ ∧
    handle_ai_error (.other typeName m) =
      ⟨500, "An unexpected error occurred. Please try again."⟩ := by
  refine ⟨rfl, rfl, rfl, ?_, rfl, rfl⟩
  intro h
  simp [handle_ai_error, h]

/-- C1 witness: the amended mapping evaluated at a concrete retryable
provider error. -/
theorem handle_ai_error_mapping_witness :
    handle_ai_error (.ai (mkAIProviderError "p")) =
      ⟨if (mkAIProviderError "p").retryable then 503 else 500,
       (mkAIProviderError "p").message⟩ :=
  (handle_ai_error_mapping "x" "t" (mkAIProviderError "p")).2.2.2.1 rfl

/-- C5: a `Why:` line following a labeled line sets the rationale of the
suggestion being built, and a suggestion finalized without one gets the
fixed placeholder: parsing "1. Foo\nWhy: bar\n2. Baz" yields exactly
[(Foo, bar), (Baz, A valid alternative)]. -/
theorem parse_options_why_literal :
    parse_options "1. Foo\nWhy: bar\n2. Baz" =
      [⟨"Foo", "bar"⟩, ⟨"Baz", "A valid alternative"⟩] := by
  decide

/-- C7: `_call_llm` classifies provider status codes, in precedence order:
429 to RateLimit; 401 to ConfigError with a fixed non-leaking message;
402 to ProviderError; any status at least 500 to ProviderError; any other
non-success status to ProviderError with the status code embedded in the
message; a 2xx response raises none of these. -/
theorem classify_status_spec :
    classify_status 429 = some rateLimitErrorDefault ∧
    classify_status 401 =
      some (mkAIConfigError "AI service authentication failed. Please contact support.") ∧
    classify_status 402 =
      some (mkAIProviderError "AI service payment required. Please contact support.") ∧
    (∀ s : Nat, 500 ≤ s → classify_status s =
      some (mkAIProviderError "AI service is experiencing issues. Please try again later.")) ∧
    (∀ s : Nat, s ≠ 429 → s ≠ 401 → s ≠ 402 → s < 500 → is_success s = false →
      classify_status s =
        some (mkAIProviderError ("AI service returned error: " ++ toString s))) ∧
    (∀ s : Nat, is_success s = true → classify_status s = none) := by
  refine ⟨rfl, rfl, rfl, ?_, ?_, ?_⟩
  · intro s h
    unfold classify_status
    rw [if_neg (by omega), if_neg (by omega), if_neg (by omega), if_pos h]
  · intro s h1 h2 h3 h4 h5
    unfold classify_status
    rw [if_neg h1, if_neg h2, if_neg h3, if_neg (by omega), if_neg (by simp [h5])]
  · intro s h
    have h' : 200 ≤ s ∧ s < 300 := by simpa [is_success] using h
    unfold classify_status
    rw [if_neg (by omega), if_neg (by omega), if_neg (by omega), if_neg (by omega),
      if_pos h]

/-- C7 witness: classification evaluated at 502 (server error), 418 (other
non-success), and 204 (success). -/
theorem classify_status_spec_witness :
    classify_status 502 =
      some (mkAIProviderError "AI service is experiencing issues. Please try again later.") ∧
    classify_status 418 =
      some (mkAIProviderError ("AI service returned error: " ++ toString 418)) ∧
    classify_status 204 = none :=
  ⟨classify_status_spec.2.2.2.1 502 (by omega),
   classify_status_spec.2.2.2.2.1 418 (by decide) (by decide) (by decide) (by omega)
     (by decide),
   classify_status_spec.2.2.2.2.2 204 (by decide)⟩

/-- C8: the consent gate passes (returning True) exactly when the preference
record exists, is readable, and carries `ai_enabled=true`; in every other
case — record absent, lookup raising, flag missing or false — it rejects
with status 403 and its fixed detail, whose lowercase form contains
"consent". -/
theorem verify_ai_consent_spec :
    (∀ lk : ConsentLookup,
      verify_ai_consent lk =
        if lk = .ok (some ⟨some true⟩) then .ok true
        else .error ⟨403, consentDetail⟩) ∧
    containsSub ("consent".data) (lowerL consentDetail.data) = true := by
  constructor
  · intro lk
    cases lk with
    | raise => rfl
    | ok data =>
      cases data with
      | none => rfl
      | some row =>
        cases row with
        | mk ab =>
          cases ab with
          | none => rfl
          | some b => cases b <;> rfl
  · decide

/-- C9: every `AIResponse` produced by any of the five mode operations has
`original_valid = true`; no path constructs a response with it false. -/
theorem mode_original_valid (llm : Except AIServiceError String) (resp : AIResponse) :
    (clarify llm = .ok resp → resp.original_valid = true) ∧
    (alternatives llm = .ok resp → resp.original_valid = true) ∧
    (tone llm = .ok resp → resp.original_valid = true) ∧
    (expand llm = .ok resp → resp.original_valid = true) ∧
    (opening llm = .ok resp → resp.original_valid = true) := by
  have key : llm.map modeReply = .ok resp → resp.original_valid = true := by
    intro h
    cases llm with
    | error e => simp [Except.map] at h
    | ok raw =>
      simp [Except.map] at h
      rw [← h]
      rfl
  exact ⟨key, key, key, key, key⟩

/-- C9 witness: a successful clarify call on a concrete reply. -/
theorem mode_original_valid_witness :
    (modeReply "x").original_valid = true :=
  (mode_original_valid (Except.ok "x") (modeReply "x")).1 rfl

/-- C2: the parser is total — for every input string, including the empty
string, `parse_options` returns between 1 and 3 suggestions. -/
theorem parse_options_length_bounds (s : String) :
    1 ≤ (parse_options s).length ∧ (parse_options s).length ≤ 3 := by
  unfold parse_options
  split
  · simp
  · next h =>
    have hlen : 0 < (parsedOptions s).length := List.length_pos.mpr h
    rw [List.length_take]
    omega

/-- During the loop, lines recognizing no label never touch the finished
options or the in-progress text. -/
lemma foldl_parseLine_no_label (lines : List (List Char)) :
    ∀ (opts : List AIOption) (why : List Char),
      (∀ l ∈ lines, isLabel (pystripL l) = false) →
      ∃ w, lines.foldl parseLine ⟨opts, [], why⟩ = ⟨opts, [], w⟩ := by
  induction lines with
  | nil => exact fun opts why _ => ⟨why, rfl⟩
  | cons l ls ih =>
    intro opts why h
    have hl : isLabel (pystripL l) = false := h l (List.mem_cons_self l ls)
    have hrest : ∀ x ∈ ls, isLabel (pystripL x) = false :=
      fun x hx => h x (List.mem_cons_of_mem l hx)
    rw [List.foldl_cons]
    by_cases hw : ("why:".data).isPrefixOf (lowerL (pystripL l)) = true
    · have hstep : parseLine ⟨opts, [], why⟩ l =
          ⟨opts, [], pystripL ((pystripL l).drop 4)⟩ := by
        simp [parseLine, hl, hw]
      rw [hstep]
      exact ih opts _ hrest
    · have hstep : parseLine ⟨opts, [], why⟩ l = ⟨opts, [], why⟩ := by
        simp [parseLine, hl, hw]
      rw [hstep]
      exact ih opts why hrest

/-- C4: when no line matches a recognized label, the parser returns exactly
one suggestion whose text is the first 500 characters of the raw input and
whose rationale is the fixed placeholder. -/
theorem parse_options_no_label_fallback (s : String)
    (h : ∀ l ∈ splitNL (pystripL s.data), isLabel (pystripL l) = false) :
    parse_options s = [⟨String.mk (s.data.take 500), "AI suggestion"⟩] := by
  obtain ⟨w, hw⟩ := foldl_parseLine_no_label (splitNL (pystripL s.data)) [] [] h
  have hempty : parsedOptions s = [] := by
    unfold parsedOptions parseFold
    rw [hw]
    rfl
  unfold parse_options
  rw [hempty]
  rfl

/-- C4 witness: a label-free input falls back to the 500-character prefix. -/
theorem parse_options_no_label_fallback_witness :
    parse_options "hello\nworld" =
      [⟨String.mk ("hello\nworld".data.take 500), "AI suggestion"⟩] :=
  parse_options_no_label_fallback "hello\nworld" (by decide)

/-- The texts of the finalized option list are exactly the committed texts. -/
lemma map_text_finalizeCurrent (st : PState) :
    (finalizeCurrent st).map (fun o => o.text.data) = emittedTexts st := by
  unfold finalizeCurrent emittedTexts
  by_cases h : st.currentText = []
  · simp [h]
  · simp [h]

/-- One loop iteration appends the label's extracted text to the committed
texts when the line is a label (with nonempty extracted text), and leaves
them unchanged otherwise. -/
lemma emittedTexts_parseLine (st : PState) (l : List Char)
    (hne : isLabel (pystripL l) = true → labelText (pystripL l) ≠ []) :
    emittedTexts (parseLine st l) =
      emittedTexts st ++
        (if isLabel (pystripL l) then [labelText (pystripL l)] else []) := by
  by_cases hl : isLabel (pystripL l) = true
  · have hstep : parseLine st l = ⟨finalizeCurrent st, labelText (pystripL l), []⟩ := by
      simp [parseLine, hl]
    rw [hstep]
    have htext := hne hl
    simp only [emittedTexts, hl, if_true, if_neg htext]
    rw [map_text_finalizeCurrent]
    rfl
  · rw [if_neg hl, List.append_nil]
    by_cases hw : ("why:".data).isPrefixOf (lowerL (pystripL l)) = true
    · have hstep : parseLine st l =
          ⟨st.options, st.currentText, pystripL ((pystripL l).drop 4)⟩ := by
        simp [parseLine, hl, hw]
      rw [hstep]
      rfl
    · have hstep : parseLine st l = st := by
        simp [parseLine, hl, hw]
      rw [hstep]

/-- Fold invariant: running the loop appends, to the committed texts, the
extracted text of every recognized label line, in input order. -/
lemma emittedTexts_foldl (lines : List (List Char)) :
    ∀ st : PState,
      (∀ l ∈ lines, isLabel (pystripL l) = true → labelText (pystripL l) ≠ []) →
      emittedTexts (lines.foldl parseLine st) =
        emittedTexts st ++ ((lines.map pystripL).filter isLabel).map labelText := by
  induction lines with
  | nil => intro st _; simp
  | cons l ls ih =>
    intro st h
    have hl := h l (List.mem_cons_self l ls)
    have hrest : ∀ x ∈ ls, isLabel (pystripL x) = true → labelText (pystripL x) ≠ [] :=
      fun x hx => h x (List.mem_cons_of_mem l hx)
    rw [List.foldl_cons, ih (parseLine st l) hrest, emittedTexts_parseLine st l hl]
    by_cases hlab : isLabel (pystripL l) = true
    · simp [hlab, List.filter_cons]
    · simp [hlab, List.filter_cons]

/-- C3 counterexample: not every line starting with a recognized label
starts a suggestion — a label with empty text after it (here the bare
line "1.") is recognized but contributes no suggestion, so two label lines
produce a single suggestion. -/
theorem parse_options_label_sections_counterexample :
    (labelLines "1.\n2. Foo").length = 2 ∧
    (parse_options "1.\n2. Foo").length = 1 ∧
    parse_options "1.\n2. Foo" = [⟨"Foo", "A valid alternative"⟩] := by
  decide

/-- C3 (amended): on input whose recognized label lines all carry nonempty
extracted text, the parser returns one suggestion per label, in input
order, truncated to the first three; later labeled sections are parsed but
discarded. -/
theorem parse_options_label_sections (s : String)
    (hne : labelLines s ≠ [])
    (htext : ∀ l ∈ splitNL (pystripL s.data),
      isLabel (pystripL l) = true → labelText (pystripL l) ≠ []) :
    (parse_options s).map AIOption.text =
      ((labelLines s).map (fun l => String.mk (labelText l))).take 3 := by
  have hdata : (parsedOptions s).map (fun o => o.text.data) =
      (labelLines s).map labelText := by
    unfold parsedOptions parseFold labelLines
    rw [map_text_finalizeCurrent,
      emittedTexts_foldl (splitNL (pystripL s.data)) ⟨[], [], []⟩ htext]
    rfl
  have hopt : parsedOptions s ≠ [] := by
    intro hcon
    apply hne
    rw [hcon] at hdata
    simp only [List.map_nil] at hdata
    exact List.map_eq_nil_iff.mp hdata.symm
  have hres : parse_options s = (parsedOptions s).take 3 := by
    unfold parse_options
    rw [if_neg hopt]
  have hmk := congrArg (List.map String.mk) hdata
  rw [List.map_map, List.map_map] at hmk
  rw [hres, List.map_take]
  exact congrArg (List.take 3) hmk

/-- C3 witness: four labeled sections parse to the first three texts. -/
theorem parse_options_label_sections_witness :
    (parse_options "1. Foo\n2. Bar\n3. Baz\n1. Qux").map AIOption.text =
      ((labelLines "1. Foo\n2. Bar\n3. Baz\n1. Qux").map
        (fun l => String.mk (labelText l))).take 3 ∧
    (parse_options "1. Foo\n2. Bar\n3. Baz\n1. Qux").map AIOption.text =
      ["Foo", "Bar", "Baz"] :=
  ⟨parse_options_label_sections "1. Foo\n2. Bar\n3. Baz\n1. Qux" (by decide) (by decide),
   by decide⟩

/-- C6: one check first drops entries older than the window, rejects when
the remaining count reaches the limit, otherwise appends and admits; with
limit 2, three requests within the window give admit, admit, reject, and a
request after the window has passed is admitted again. -/
theorem rate_limiter_admit_admit_reject (t1 t2 t3 t4 : ℚ)
    (h12 : t1 ≤ t2) (h23 : t2 ≤ t3) (hwin : t3 - t1 < 3600)
    (hpast : 3600 ≤ t4 - t2) :
    rlStep 2 [] t1 = (true, [t1]) ∧
    rlStep 2 [t1] t2 = (true, [t1, t2]) ∧
    rlStep 2 [t1, t2] t3 = (false, [t1, t2]) ∧
    rlStep 2 [t1, t2] t4 = (true, [t4]) := by
  have k21 : decide (t2 - t1 < rlWindow) = true :=
    decide_eq_true (by unfold rlWindow; linarith)
  have k31 : decide (t3 - t1 < rlWindow) = true :=
    decide_eq_true (by unfold rlWindow; linarith)
  have k32 : decide (t3 - t2 < rlWindow) = true :=
    decide_eq_true (by unfold rlWindow; linarith)
  have k41 : decide (t4 - t1 < rlWindow) = false :=
    decide_eq_false (by unfold rlWindow; intro h; linarith)
  have k42 : decide (t4 - t2 < rlWindow) = false :=
    decide_eq_false (by unfold rlWindow; intro h; linarith)
  refine ⟨?_, ?_, ?_, ?_⟩
  · simp [rlStep, rlFilter]
  · simp [rlStep, rlFilter, k21]
  · simp [rlStep, rlFilter, k31, k32]
  · simp [rlStep, rlFilter, k41, k42]

/-- C6 witness: the trace at concrete times 0, 1, 2 and 3601. -/
theorem rate_limiter_admit_admit_reject_witness :
    rlStep 2 [] 0 = (true, [0]) ∧
    rlStep 2 [0] 1 = (true, [0, 1]) ∧
    rlStep 2 [(0 : ℚ), 1] 2 = (false, [0, 1]) ∧
    rlStep 2 [(0 : ℚ), 1] 3601 = (true, [3601]) :=
  rate_limiter_admit_admit_reject 0 1 2 3601 (by norm_num) (by norm_num)
    (by norm_num) (by norm_num)

/-- Every timestamp stored by one check was either kept from the old list
(and is inside the window) or is the check time itself. -/
lemma mem_rlStep_snd {limit : Nat} {st : List ℚ} {now t : ℚ}
    (h : t ∈ (rlStep limit st now).2) :
    (t ∈ st ∧ now - t < rlWindow) ∨ t = now := by
  unfold rlStep at h
  split_ifs at h with hc
  · rcases List.mem_filter.mp h with ⟨hin, hp⟩
    exact Or.inl ⟨hin, of_decide_eq_true hp⟩
  · rcases List.mem_append.mp h with hkept | hnow
    · rcases List.mem_filter.mp hkept with ⟨hin, hp⟩
      exact Or.inl ⟨hin, of_decide_eq_true hp⟩
    · exact Or.inr (List.mem_singleton.mp hnow)

/-- One check never grows the stored list beyond the limit. -/
lemma rlStep_length {limit : Nat} {st : List ℚ} {now : ℚ}
    (h : st.length ≤ limit) : ((rlStep limit st now).2).length ≤ limit := by
  have hf : (rlFilter now st).length ≤ st.length := List.length_filter_le _ _
  unfold rlStep
  split_ifs with hc
  · exact le_trans hf h
  · rw [List.length_append, List.length_singleton]
    omega

/-- A rejected check stores exactly the filtered old list, appending
nothing. -/
lemma rlStep_reject {limit : Nat} {st : List ℚ} {now : ℚ}
    (h : (rlStep limit st now).1 = false) :
    (rlStep limit st now).2 = rlFilter now st := by
  unfold rlStep at h ⊢
  by_cases hc : limit ≤ (rlFilter now st).length
  · rw [if_pos hc]
  · rw [if_neg hc] at h
    simp at h

/-- The stored list stays within the limit along any sequence of checks. -/
lemma rlRun_aux_length (limit : Nat) (checks : List ℚ) :
    ∀ st : List ℚ, st.length ≤ limit →
      (checks.foldl (fun st now => (rlStep limit st now).2) st).length ≤ limit := by
  induction checks with
  | nil => intro st h; simpa using h
  | cons c cs ih => exact fun st h => ih _ (rlStep_length h)

/-- Every stored timestamp originated as some check's time. -/
lemma mem_rlRun_aux (limit : Nat) (checks : List ℚ) :
    ∀ (st : List ℚ) (t : ℚ),
      t ∈ checks.foldl (fun st now => (rlStep limit st now).2) st →
      t ∈ st ∨ t ∈ checks := by
  induction checks with
  | nil => intro st t h; exact Or.inl (by simpa using h)
  | cons c cs ih =>
    intro st t h
    rcases ih _ t h with hst | hcs
    · rcases mem_rlStep_snd hst with ⟨h1, _⟩ | h2
      · exact Or.inl h1
      · exact Or.inr (by simp [h2])
    · exact Or.inr (List.mem_cons_of_mem c hcs)

/-- C10: after a rate-limiter check on an AI-prefixed path, performed after
any monotone history of checks for the identifier, the stored list contains
only timestamps inside the trailing window of the check time and is no
longer than the limit; a rejected check stores exactly the filtered old
list, so rejected requests consume no quota. -/
theorem rate_limit_state_invariant (limit : Nat) (path : String)
    (checks : List ℚ) (now : ℚ)
    (hpath : aiPath path = true) (hmono : ∀ c ∈ checks, c ≤ now) :
    (∀ t ∈ (dispatchRL limit path (rlRun limit checks) now).2,
        now - t < rlWindow ∧ t ≤ now) ∧
    ((dispatchRL limit path (rlRun limit checks) now).2).length ≤ limit ∧
    ((dispatchRL limit path (rlRun limit checks) now).1 = some false →
      (dispatchRL limit path (rlRun limit checks) now).2 =
        rlFilter now (rlRun limit checks)) := by
  have hd : dispatchRL limit path (rlRun limit checks) now =
      (some (rlStep limit (rlRun limit checks) now).1,
       (rlStep limit (rlRun limit checks) now).2) := by
    simp [dispatchRL, hpath]
  rw [hd]
  refine ⟨?_, ?_, ?_⟩
  · intro t ht
    rcases mem_rlStep_snd ht with ⟨hin, hw⟩ | heq
    · refine ⟨hw, ?_⟩
      rcases mem_rlRun_aux limit checks [] t hin with h0 | hc
      · simp at h0
      · exact hmono t hc
    · subst heq
      refine ⟨by unfold rlWindow; norm_num, le_refl t⟩
  · exact rlStep_length (rlRun_aux_length limit checks [] (by simp))
  · intro hrej
    simp only [Option.some.injEq] at hrej
    exact rlStep_reject hrej

/-- C10 witness: a first check on an AI path from an empty history. -/
theorem rate_limit_state_invariant_witness :
    (∀ t ∈ (dispatchRL 2 "/api/ai/clarify" (rlRun 2 []) 0).2,
        (0 : ℚ) - t < rlWindow ∧ t ≤ 0) ∧
    ((dispatchRL 2 "/api/ai/clarify" (rlRun 2 []) 0).2).length ≤ 2 ∧
    ((dispatchRL 2 "/api/ai/clarify" (rlRun 2 []) 0).1 = some false →
      (dispatchRL 2 "/api/ai/clarify" (rlRun 2 []) 0).2 =
        rlFilter 0 (rlRun 2 [])) :=
  rate_limit_state_invariant 2 "/api/ai/clarify" [] 0 (by decide)
    (fun c hc => absurd hc (List.not_mem_nil c))
